import Mathlib

/-!
Verification development for the two instructional notebooks of this
repository (`pyplot.ipynb` and `feature_selection.ipynb`).

The procedural logic of the repository is the dataset fetcher of
`feature_selection.ipynb` (`download_data`, `download_all`), the column
renames and column projections applied to the loaded tables, and the single
`plt.savefig` call of `pyplot.ipynb`.  We embed this glue code shallowly:

* the filesystem is an explicit state (`FS`): an association list of file
  paths to byte contents plus a list of existing directories; paths are
  lists of components, so `os.path.join(path, name)` is `path ++ [name]`;
* the environment (`Env`) supplies the bytes an HTTP GET returns, the
  entry list a zip archive decompresses to, and the bytes matplotlib
  renders for the saved figure;
* every fallible operation returns `Except String _`, and the Python
  functions, which have no try/except, are embedded by explicit matches
  that propagate every error unchanged;
* each run also produces a trace of `Event`s (GET, mkdir, file write,
  archive extraction) so that ordering and effect-confinement claims can
  be stated;
* the notebook statement structure is additionally reflected as a tiny
  statement AST (`Stmt`) for the control-flow claim;
* the loaded tables are modelled by `DataFrame` (named columns plus rows
  of positional values), with pandas column assignment and column
  projection embedded as `set_columns`, `selectCols` and `selectCol`.
-/

/-- File contents: a list of bytes. -/
abbrev Bytes := List Nat

/-- A filesystem path, as its list of components:
`os.path.join(p, n)` becomes `p ++ [n]`. -/
abbrev FPath := List String

/-- Write `b` at key `p` in an association list, truncating (replacing) any
previous content: the semantics of opening with mode `wb` and writing. -/
def setFile (files : List (FPath × Bytes)) (p : FPath) (b : Bytes) :
    List (FPath × Bytes) :=
  match files with
  | [] => [(p, b)]
  | (q, c) :: rest =>
    if q = p then (p, b) :: rest else (q, c) :: setFile rest p b

/-- Content of the file at `p`, if present. -/
def lookupFile (files : List (FPath × Bytes)) (p : FPath) : Option Bytes :=
  match files with
  | [] => none
  | (q, c) :: rest => if q = p then some c else lookupFile rest p

/-- Filesystem state: existing directories and files with their contents. -/
structure FS where
  dirs : List FPath
  files : List (FPath × Bytes)
deriving DecidableEq, Repr

/-- `p` exists as a directory (the empty path is the working directory). -/
def FS.dirExists (fs : FS) (p : FPath) : Bool :=
  p.isEmpty || fs.dirs.contains p

/-- `p` exists as a file. -/
def FS.fileExists (fs : FS) (p : FPath) : Bool :=
  (lookupFile fs.files p).isSome

/-- `os.path.exists(p)`: a directory or a file exists at `p`. -/
def FS.pathExists (fs : FS) (p : FPath) : Bool :=
  fs.dirExists p || fs.fileExists p

/-- `os.mkdir(p)`: creates the single final component; fails if `p` already
exists or if the parent directory is missing. -/
def FS.mkdir (fs : FS) (p : FPath) : Except String FS :=
  if fs.pathExists p then Except.error ("FileExistsError")
  else if fs.dirExists p.dropLast then
    Except.ok { fs with dirs := p :: fs.dirs }
  else Except.error ("FileNotFoundError")

/-- `open(p, 'wb')` followed by a full write: truncates and replaces any
existing file at `p`; fails when the parent is not a directory or `p`
itself is a directory. -/
def FS.writeFile (fs : FS) (p : FPath) (b : Bytes) : Except String FS :=
  if fs.dirExists p.dropLast && !fs.dirExists p then
    Except.ok { fs with files := setFile fs.files p b }
  else Except.error ("NotADirectoryError")

/-- Observable I/O events of a run. -/
inductive Event where
  | get (url : String)
  | mkdirE (p : FPath)
  | write (p : FPath) (b : Bytes)
  | extractE (zipPath target : FPath)
deriving DecidableEq, Repr

/-- Whether an event is an HTTP GET. -/
def Event.isGet : Event → Bool
  | Event.get _ => true
  | _ => false

/-- Whether an event is a file write. -/
def Event.isWrite : Event → Bool
  | Event.write _ _ => true
  | _ => false

/-- Whether an event is an archive extraction. -/
def Event.isExtract : Event → Bool
  | Event.extractE _ _ => true
  | _ => false

/-- The external world: HTTP responses, zip decompression, and the bytes
matplotlib renders for the saved figure. -/
structure Env where
  http : String → Except String Bytes
  unzip : Bytes → Except String (List (String × Bytes))
  render : Bytes

/-- The three dataset tuples of `feature_selection.ipynb`. -/
def OCCUPANCY : String × String :=
  ("http://bit.ly/ddl-occupancy-dataset", "occupancy.zip")

/-- The credit dataset tuple. -/
def CREDIT : String × String :=
  ("http://bit.ly/ddl-credit-dataset", "credit.xls")

/-- The concrete dataset tuple. -/
def CONCRETE : String × String :=
  ("http://bit.ly/ddl-concrete-data", "concrete.xls")

/-- Run the next step on the result of a fallible operation; an error
aborts and propagates unchanged.  This is how the notebooks, which contain
no try/except, sequence their fallible operations: any exception is an
unhandled abort. -/
def exceptStep {α β : Type} (x : Except String α) (f : α → Except String β) :
    Except String β :=
  match x with
  | Except.error e => Except.error e
  | Except.ok a => f a

/-- Read the file at `p`, failing like `open(p)` on a missing file. -/
def readFileE (fs : FS) (p : FPath) : Except String Bytes :=
  match lookupFile fs.files p with
  | none => Except.error ("FileNotFoundError")
  | some b => Except.ok b

/-- `download_data(url, name, path)`:

    if not os.path.exists(path):
        os.mkdir(path)
    response = requests.get(url)
    with open(os.path.join(path, name), 'wb') as f:
        f.write(response.content)

Every error of a sub-operation propagates unchanged (there is no
try/except in the source). -/
def download_data (env : Env) (url name : String) (path : FPath) (fs : FS) :
    Except String (FS × List Event) :=
  exceptStep
    (if fs.pathExists path then Except.ok (fs, ([] : List Event))
     else exceptStep (fs.mkdir path)
       (fun fs1 => Except.ok (fs1, [Event.mkdirE path])))
    (fun s1 =>
      exceptStep (env.http url) (fun content =>
        exceptStep (s1.1.writeFile (path ++ [name]) content) (fun fs2 =>
          Except.ok (fs2, s1.2 ++ [Event.get url, Event.write (path ++ [name]) content]))))

/-- Write each zip entry `(n, b)` at `target ++ [n]`. -/
def writeEntries (files : List (FPath × Bytes)) (target : FPath) :
    List (String × Bytes) → List (FPath × Bytes)
  | [] => files
  | (n, b) :: rest => writeEntries (setFile files (target ++ [n]) b) target rest

/-- `z = zipfile.ZipFile(zipPath); z.extractall(target)`: reads the archive
at `zipPath`, decompresses it, creates `target` and writes every entry
below it; any failure (missing archive, corrupt archive) propagates. -/
def extract_zip (env : Env) (zipPath target : FPath) (fs : FS) :
    Except String (FS × List Event) :=
  exceptStep (readFileE fs zipPath) (fun archive =>
    exceptStep (env.unzip archive) (fun entries =>
      Except.ok
        ({ dirs := target :: fs.dirs, files := writeEntries fs.files target entries },
         Event.extractE zipPath target ::
           entries.map (fun e => Event.write (target ++ [e.1]) e.2))))

/-- The body of the `for href, name in (...)` loop of `download_all`,
run sequentially over a list of `(url, filename)` tuples. -/
def download_list (env : Env) (path : FPath) (fs : FS) :
    List (String × String) → Except String (FS × List Event)
  | [] => Except.ok (fs, [])
  | (href, name) :: rest =>
    exceptStep (download_data env href name path fs) (fun s1 =>
      exceptStep (download_list env path s1.1 rest) (fun s2 =>
        Except.ok (s2.1, s1.2 ++ s2.2)))

/-- `download_all(path)`:

    for href, name in (OCCUPANCY, CREDIT, CONCRETE):
        download_data(href, name, path)
    z = zipfile.ZipFile(os.path.join(path, 'occupancy.zip'))
    z.extractall(os.path.join(path, 'occupancy'))
-/
def download_all (env : Env) (path : FPath) (fs : FS) :
    Except String (FS × List Event) :=
  exceptStep (download_list env path fs [OCCUPANCY, CREDIT, CONCRETE]) (fun s1 =>
    exceptStep (extract_zip env (path ++ [("occupancy.zip")]) (path ++ [("occupancy")]) s1.1)
      (fun s2 => Except.ok (s2.1, s1.2 ++ s2.2)))

/-- `plt.savefig("figures/quadratics.png")` from `pyplot.ipynb`: writes the
rendered figure bytes at that path. -/
def savefig (env : Env) (fs : FS) : Except String (FS × List Event) :=
  exceptStep (fs.writeFile (["figures", "quadratics.png"]) env.render) (fun fs1 =>
    Except.ok (fs1, [Event.write (["figures", "quadratics.png"]) env.render]))

/-- All filesystem-writing cells of the two notebooks in program order:
`feature_selection.ipynb` runs `download_all('data')`, and
`pyplot.ipynb` saves one figure under `figures`. -/
def run_notebooks (env : Env) (fs : FS) : Except String (FS × List Event) :=
  exceptStep (download_all env (["data"]) fs) (fun s1 =>
    exceptStep (savefig env s1.1) (fun s2 => Except.ok (s2.1, s1.2 ++ s2.2)))

/-! ## Statement-level syntax of the authored notebook code

For the control-flow claim we also reflect the statement structure of each
notebook cell as a small AST, faithful to the nesting of compound
statements (conditionals, loops, with-blocks, function definitions);
expression and assignment statements carry their source text as a label. -/

/-- A Python statement, as authored in the notebooks. -/
inductive Stmt where
  | skip : Stmt
  | seq : Stmt → Stmt → Stmt
  | importS : String → Stmt
  | assign : String → Stmt
  | expr : String → Stmt
  | ifS : String → Stmt → Stmt → Stmt
  | forS : String → String → Stmt → Stmt
  | withS : String → Stmt → Stmt
  | defS : String → Stmt → Stmt
deriving DecidableEq, Repr

/-- Sequence a list of statements. -/
def Stmt.block : List Stmt → Stmt
  | [] => Stmt.skip
  | s :: rest => Stmt.seq s (Stmt.block rest)

/-- Number of loop statements (for-loops; the notebooks have no while). -/
def countLoops : Stmt → Nat
  | Stmt.seq a b => countLoops a + countLoops b
  | Stmt.ifS _ t e => countLoops t + countLoops e
  | Stmt.forS _ _ b => 1 + countLoops b
  | Stmt.withS _ b => countLoops b
  | Stmt.defS _ b => countLoops b
  | _ => 0

/-- Number of conditional branch statements. -/
def countBranches : Stmt → Nat
  | Stmt.seq a b => countBranches a + countBranches b
  | Stmt.ifS _ t e => 1 + countBranches t + countBranches e
  | Stmt.forS _ _ b => countBranches b
  | Stmt.withS _ b => countBranches b
  | Stmt.defS _ b => countBranches b
  | _ => 0

/-- The for-loops of a statement: `(loop target, iterable)` pairs. -/
def loopsOf : Stmt → List (String × String)
  | Stmt.seq a b => loopsOf a ++ loopsOf b
  | Stmt.ifS _ t e => loopsOf t ++ loopsOf e
  | Stmt.forS t i b => (t, i) :: loopsOf b
  | Stmt.withS _ b => loopsOf b
  | Stmt.defS _ b => loopsOf b
  | _ => []

/-- The authored code of `feature_selection.ipynb`, cell by cell. -/
def featureSelectionCode : Stmt := Stmt.block [
  Stmt.importS ("import os"),
  Stmt.importS ("import zipfile"),
  Stmt.importS ("import requests"),
  Stmt.importS ("import pandas as pd"),
  Stmt.importS ("from sklearn.decomposition import PCA"),
  Stmt.importS ("from sklearn.feature_selection import SelectFromModel"),
  Stmt.importS ("from sklearn.linear_model import Ridge, Lasso, ElasticNet"),
  Stmt.importS ("from sklearn.discriminant_analysis import LinearDiscriminantAnalysis as LDA"),
  Stmt.assign ("OCCUPANCY = (http.bit.ly.ddl-occupancy-dataset, occupancy.zip)"),
  Stmt.assign ("CREDIT = (http.bit.ly.ddl-credit-dataset, credit.xls)"),
  Stmt.assign ("CONCRETE = (http.bit.ly.ddl-concrete-data, concrete.xls)"),
  Stmt.defS ("download_data(url, name, path=data)") (Stmt.block [
    Stmt.ifS ("not os.path.exists(path)")
      (Stmt.expr ("os.mkdir(path)")) Stmt.skip,
    Stmt.assign ("response = requests.get(url)"),
    Stmt.withS ("open(os.path.join(path, name), wb) as f")
      (Stmt.expr ("f.write(response.content)"))]),
  Stmt.defS ("download_all(path=data)") (Stmt.block [
    Stmt.forS ("href, name") ("(OCCUPANCY, CREDIT, CONCRETE)")
      (Stmt.expr ("download_data(href, name, path)")),
    Stmt.assign ("z = zipfile.ZipFile(os.path.join(path, occupancy.zip))"),
    Stmt.expr ("z.extractall(os.path.join(path, occupancy))")]),
  Stmt.assign ("path = data"),
  Stmt.expr ("download_all(path)"),
  Stmt.assign ("occupancy = os.path.join(data, occupancy, datatraining.txt)"),
  Stmt.assign ("occupancy = pd.read_csv(occupancy, sep=,)"),
  Stmt.assign ("occupancy.columns = [date, temp, humid, light, co2, hratio, occupied]"),
  Stmt.assign ("features = occupancy[[temp, humid, light, co2, hratio]]"),
  Stmt.assign ("labels = occupancy[occupied]"),
  Stmt.expr ("list(features)"),
  Stmt.assign ("model = Lasso()"),
  Stmt.expr ("model.fit(features, labels)"),
  Stmt.expr ("print(list(zip(features, model.coef_.tolist())))"),
  Stmt.assign ("model = Ridge()"),
  Stmt.expr ("model.fit(features, labels)"),
  Stmt.expr ("print(list(zip(features, model.coef_.tolist())))"),
  Stmt.assign ("model = ElasticNet(l1_ratio=0.10)"),
  Stmt.expr ("model.fit(features, labels)"),
  Stmt.expr ("print(list(zip(features, model.coef_.tolist())))"),
  Stmt.assign ("model = Lasso()"),
  Stmt.assign ("sfm = SelectFromModel(model)"),
  Stmt.expr ("sfm.fit(features, labels)"),
  Stmt.expr ("print(list(features[sfm.get_support(indices=True)]))"),
  Stmt.assign ("model = Ridge()"),
  Stmt.assign ("sfm = SelectFromModel(model)"),
  Stmt.expr ("sfm.fit(features, labels)"),
  Stmt.expr ("print(list(features[sfm.get_support(indices=True)]))"),
  Stmt.assign ("model = ElasticNet()"),
  Stmt.assign ("sfm = SelectFromModel(model)"),
  Stmt.expr ("sfm.fit(features, labels)"),
  Stmt.expr ("print(list(features[sfm.get_support(indices=True)]))"),
  Stmt.assign ("pca = PCA(n_components=2)"),
  Stmt.assign ("new_features = pca.fit(features).transform(features)"),
  Stmt.expr ("print(new_features)"),
  Stmt.assign ("lda = LDA(n_components=2)"),
  Stmt.assign ("new_features = lda.fit(features, labels).transform(features)"),
  Stmt.expr ("print(new_features)"),
  Stmt.assign ("credit = os.path.join(data, credit.xls)"),
  Stmt.assign ("credit = pd.read_excel(credit, header=1)"),
  Stmt.assign ("credit.columns = [id, limit, sex, edu, married, age, ...]"),
  Stmt.assign ("cred_features = credit[[limit, sex, edu, married, age, ...]]"),
  Stmt.assign ("cred_labels = credit[default]"),
  Stmt.assign ("concrete = pd.read_excel(os.path.join(data, concrete.xls))"),
  Stmt.assign ("concrete.columns = [cement, slag, ash, water, splast, coarse, fine, age, strength]"),
  Stmt.assign ("conc_features = concrete[[cement, slag, ash, water, splast, coarse, fine, age]]"),
  Stmt.assign ("conc_labels = concrete[strength]")]

/-- The authored code of `pyplot.ipynb`, cell by cell. -/
def pyplotCode : Stmt := Stmt.block [
  Stmt.expr ("%matplotlib notebook"),
  Stmt.importS ("import numpy as np"),
  Stmt.importS ("import matplotlib.pyplot as plt"),
  Stmt.assign ("X = np.linspace(-10, 10, 255)"),
  Stmt.assign ("Y1 = 2*X ** 2 + 10"),
  Stmt.assign ("Y2 = 3*X ** 2 + 50"),
  Stmt.expr ("plt.plot(X, Y1)"),
  Stmt.expr ("plt.plot(X, Y2)"),
  Stmt.expr ("plt.figure(figsize=(8,6), dpi=72)"),
  Stmt.expr ("plt.subplot(111)"),
  Stmt.assign ("X = np.linspace(-10, 10, 255)"),
  Stmt.assign ("Y1 = 2*X ** 2 + 10"),
  Stmt.assign ("Y2 = 3*X ** 2 + 50"),
  Stmt.expr ("plt.plot(X, Y1, color=blue, linewidth=1.0, linestyle=-)"),
  Stmt.expr ("plt.plot(X, Y2, color=green, linewidth=1.0, linestyle=-)"),
  Stmt.expr ("plt.xlim(-10, 10)"),
  Stmt.expr ("plt.xticks(np.linspace(-10, 10, 9, endpoint=True))"),
  Stmt.expr ("plt.ylim(0, 350)"),
  Stmt.expr ("plt.yticks(np.linspace(0, 350, 5, endpoint=True))"),
  Stmt.expr ("plt.savefig(figures.quadratics.png)"),
  Stmt.assign ("X = np.linspace(-10, 10, 255)"),
  Stmt.assign ("Y1 = 2*X ** 2 + 10"),
  Stmt.assign ("Y2 = 3*X ** 2 + 50"),
  Stmt.importS ("from matplotlib.colors import ListedColormap"),
  Stmt.assign ("colors = bgrmyck"),
  Stmt.assign ("fig, ax = plt.subplots(1, 1, figsize=(7, 1))"),
  Stmt.expr ("ax.imshow(np.arange(7).reshape(1,7), cmap=ListedColormap(list(colors)), ...)"),
  Stmt.expr ("ax.set_xticks(np.arange(7) - .5)"),
  Stmt.expr ("ax.set_yticks([-0.5,0.5])"),
  Stmt.expr ("ax.set_xticklabels([])"),
  Stmt.expr ("ax.set_yticklabels([])"),
  Stmt.withS ("plt.style.context((fivethirtyeight))") (Stmt.block [
    Stmt.expr ("plt.plot(X, Y1)"),
    Stmt.expr ("plt.plot(X, Y2)")]),
  Stmt.forS ("style") ("plt.style.available")
    (Stmt.expr ("print(format(style))")),
  Stmt.expr ("plt.figure(figsize=(9,6))"),
  Stmt.expr ("plt.plot(X, Y1, color=b, linewidth=2.5, linestyle=-)"),
  Stmt.expr ("plt.plot(X, Y2, color=r, linewidth=2.5, linestyle=-)"),
  Stmt.expr ("plt.figure(figsize=(9,6))"),
  Stmt.expr ("plt.plot(X, Y1, color=b, linewidth=2.5, linestyle=-)"),
  Stmt.expr ("plt.plot(X, Y2, color=r, linewidth=2.5, linestyle=-)"),
  Stmt.expr ("plt.xlim(X.min()*1.1, X.max()*1.1)"),
  Stmt.expr ("plt.ylim(Y1.min()*-1.1, Y2.max()*1.1)"),
  Stmt.expr ("plt.figure(figsize=(9,6))"),
  Stmt.expr ("plt.plot(X, Y1, color=b, linewidth=2.5, linestyle=-, label=Y1)"),
  Stmt.expr ("plt.plot(X, Y2, color=r, linewidth=2.5, linestyle=-, label=Y2)"),
  Stmt.expr ("plt.xlim(X.min()*1.1, X.max()*1.1)"),
  Stmt.expr ("plt.ylim(Y1.min()*-1.1, Y2.max()*1.1)"),
  Stmt.expr ("plt.title(Two Quadratic Curves)"),
  Stmt.expr ("plt.legend(loc=best)"),
  Stmt.expr ("plt.figure(figsize=(9,6))"),
  Stmt.expr ("plt.plot(X, Y1, color=b, linewidth=2.5, linestyle=-, label=Y1)"),
  Stmt.expr ("plt.plot(X, Y2, color=r, linewidth=2.5, linestyle=-, label=Y2)"),
  Stmt.expr ("plt.xlim(X.min()*1.1, X.max()*1.1)"),
  Stmt.expr ("plt.ylim(0, Y2.max()*1.1)"),
  Stmt.expr ("plt.title(Two Quadratic Curves)"),
  Stmt.expr ("plt.legend(loc=best)"),
  Stmt.assign ("x = 6"),
  Stmt.assign ("y = 2*x ** 2 + 10"),
  Stmt.expr ("plt.plot([x,x], [0, y], color=blue, linewidth=1.5, linestyle=--)"),
  Stmt.expr ("plt.scatter([x,], [y,], color=blue, s=50, marker=D)"),
  Stmt.expr ("plt.annotate(fmt1, xy=(x,y), xycoords=data, xytext=(10,-50), ...)"),
  Stmt.assign ("x = -3"),
  Stmt.assign ("y = 3*x ** 2 + 50"),
  Stmt.expr ("plt.plot([x,x], [0, y], color=red, linewidth=1.5, linestyle=--)"),
  Stmt.expr ("plt.scatter([x,], [y,], color=red, s=50, marker=s)"),
  Stmt.expr ("plt.annotate(fmt2, xy=(x,y), xycoords=data, xytext=(10,50), ...)"),
  Stmt.assign ("x = np.linspace(-np.pi, np.pi, 50)"),
  Stmt.assign ("y = np.linspace(-np.pi, np.pi, 50)"),
  Stmt.assign ("X,Y = np.meshgrid(x,y)"),
  Stmt.assign ("Z = np.sin(X + Y.div4)"),
  Stmt.assign ("fig = plt.figure(figsize = (12,2.5))"),
  Stmt.expr ("fig.subplots_adjust(wspace=0.3)"),
  Stmt.expr ("plt.subplot(1,3,1)"),
  Stmt.expr ("plt.pcolormesh(X, Y, Z, cmap=plt.cm.get_cmap(Blues))"),
  Stmt.expr ("plt.colorbar()"),
  Stmt.expr ("plt.axis([-3, 3, -3, 3])"),
  Stmt.expr ("plt.title(Sequential)"),
  Stmt.expr ("plt.subplot(1,3,2)"),
  Stmt.expr ("plt.pcolormesh(X, Y, Z, cmap=plt.cm.get_cmap(RdBu))"),
  Stmt.expr ("plt.colorbar()"),
  Stmt.expr ("plt.axis([-3, 3, -3, 3])"),
  Stmt.expr ("plt.title(Diverging)"),
  Stmt.expr ("plt.subplot(1,3,3)"),
  Stmt.expr ("plt.pcolormesh(X, Y, Z, cmap=plt.cm.get_cmap(plasma))"),
  Stmt.expr ("plt.colorbar()"),
  Stmt.expr ("plt.axis([-3, 3, -3, 3])"),
  Stmt.expr ("plt.title(Fancy!)")]

/-- All authored code of the repository, in order. -/
def authoredCode : Stmt := Stmt.seq pyplotCode featureSelectionCode

/-! ## Tabular data model

`feature_selection.ipynb` loads each dataset into a pandas dataframe,
renames columns by direct assignment to `.columns`, and projects feature
and label column subsets.  A dataframe is a list of column names plus rows
of positional cell values. -/

/-- An in-memory table: named columns and rows of positional values. -/
structure DataFrame (α : Type) where
  cols : List String
  rows : List (List α)
deriving DecidableEq, Repr

/-- `df.columns = names`: pandas replaces the column names wholesale, but
raises `ValueError` when the length does not match; row data is untouched. -/
def set_columns {α : Type} (df : DataFrame α) (names : List String) :
    Except String (DataFrame α) :=
  if names.length = df.cols.length then
    Except.ok { cols := names, rows := df.rows }
  else Except.error ("ValueError")

/-- Position of column `c` in `cols` (first match). -/
def colIndex (cols : List String) (c : String) : Nat :=
  match cols with
  | [] => 0
  | c0 :: rest => if c0 = c then 0 else 1 + colIndex rest c

/-- `df[[cs]]`: projection onto the listed columns, by name; raises
`KeyError` when a name is absent; rows keep their order. -/
def DataFrame.selectCols {α : Type} [Inhabited α] (df : DataFrame α)
    (cs : List String) : Except String (DataFrame α) :=
  if cs.all (fun c => df.cols.contains c) then
    Except.ok
      { cols := cs,
        rows := df.rows.map (fun r => cs.map (fun c => r.getD (colIndex df.cols c) default)) }
  else Except.error ("KeyError")

/-- `df[c]`: a single column, by name, as the list of its values in row
order; raises `KeyError` when absent. -/
def DataFrame.selectCol {α : Type} [Inhabited α] (df : DataFrame α)
    (c : String) : Except String (List α) :=
  if df.cols.contains c then
    Except.ok (df.rows.map (fun r => r.getD (colIndex df.cols c) default))
  else Except.error ("KeyError")

/-- The seven names assigned to `occupancy.columns` right after the load. -/
def occupancy_columns : List String :=
  ["date", "temp", "humid", "light", "co2", "hratio", "occupied"]

/-- The notebook cell that loads the occupancy table:
`occupancy = pd.read_csv(...)` immediately followed by
`occupancy.columns = [...]`; `parsed` is the dataframe `read_csv` returns,
and nothing happens between the load and the rename. -/
def load_occupancy_cell {α : Type} (parsed : DataFrame α) :
    Except String (DataFrame α) :=
  set_columns parsed occupancy_columns

/-- The five feature column names of the occupancy table. -/
def feature_columns : List String :=
  ["temp", "humid", "light", "co2", "hratio"]

/-- `features = occupancy[[temp, humid, light, co2, hratio]]`. -/
def features_cell {α : Type} [Inhabited α] (occupancy : DataFrame α) :
    Except String (DataFrame α) :=
  occupancy.selectCols feature_columns

/-- `labels = occupancy[occupied]`. -/
def labels_cell {α : Type} [Inhabited α] (occupancy : DataFrame α) :
    Except String (List α) :=
  occupancy.selectCol ("occupied")

/-! ## Concrete environment and filesystem for witnesses -/

/-- A concrete HTTP world: every URL answers with a distinct small body. -/
def httpOk : String → Except String Bytes := fun u =>
  if u = OCCUPANCY.1 then Except.ok ([1, 2])
  else if u = CREDIT.1 then Except.ok ([3])
  else Except.ok ([4])

/-- A concrete environment where every operation succeeds. -/
def envOk : Env :=
  { http := httpOk,
    unzip := fun _ => Except.ok ([("datatraining.txt", [9])]),
    render := [7] }

/-- A concrete initial filesystem: only the `figures` directory exists. -/
def fs0 : FS := { dirs := [["figures"]], files := [] }

/-! ## Basic lemmas about the filesystem model -/

theorem dropLast_snoc {α : Type} (l : List α) (a : α) :
    (l ++ [a]).dropLast = l := by
  simp

theorem lookup_setFile_self (files : List (FPath × Bytes)) (p : FPath)
    (b : Bytes) : lookupFile (setFile files p b) p = some b := by
  induction files with
  | nil => simp [setFile, lookupFile]
  | cons hd tl ih =>
    obtain ⟨q, c⟩ := hd
    by_cases h : q = p
    · simp [setFile, lookupFile, h]
    · simp [setFile, lookupFile, h, ih]

theorem lookup_setFile_ne (files : List (FPath × Bytes)) (p q : FPath)
    (b : Bytes) (h : q ≠ p) :
    lookupFile (setFile files p b) q = lookupFile files q := by
  induction files with
  | nil =>
    simp only [setFile, lookupFile]
    rw [if_neg (fun hh => h hh.symm)]
  | cons hd tl ih =>
    obtain ⟨r, c⟩ := hd
    by_cases hr : r = p
    · subst hr
      simp only [setFile, if_pos rfl, lookupFile]
      rw [if_neg (fun hh => h hh.symm), if_neg (fun hh => h hh.symm)]
    · by_cases hq : r = q
      · subst hq
        simp [setFile, lookupFile, hr]
      · simp [setFile, lookupFile, hr, hq, ih]

theorem setFile_setFile (files : List (FPath × Bytes)) (p : FPath)
    (b1 b2 : Bytes) : setFile (setFile files p b1) p b2 = setFile files p b2 := by
  induction files with
  | nil => simp [setFile]
  | cons hd tl ih =>
    obtain ⟨q, c⟩ := hd
    by_cases h : q = p
    · simp [setFile, h]
    · simp [setFile, h, ih]

theorem lookup_writeEntries_ne (es : List (String × Bytes)) (target : FPath)
    (files : List (FPath × Bytes)) (q : FPath)
    (h : ∀ s, q ≠ target ++ [s]) :
    lookupFile (writeEntries files target es) q = lookupFile files q := by
  induction es generalizing files with
  | nil => simp [writeEntries]
  | cons hd tl ih =>
    obtain ⟨n, b⟩ := hd
    simp only [writeEntries]
    rw [ih, lookup_setFile_ne _ _ _ _ (h n)]

theorem exceptStep_ok_iff {α β : Type} {x : Except String α}
    {f : α → Except String β} {c : β} :
    exceptStep x f = Except.ok c ↔ ∃ a, x = Except.ok a ∧ f a = Except.ok c := by
  cases x with
  | error e => simp [exceptStep]
  | ok a => simp [exceptStep]

theorem exceptStep_error {α β : Type} {x : Except String α} {e : String}
    (f : α → Except String β) (h : x = Except.error e) :
    exceptStep x f = Except.error e := by
  rw [h]; rfl

theorem readFileE_ok_iff {fs : FS} {p : FPath} {b : Bytes} :
    readFileE fs p = Except.ok b ↔ lookupFile fs.files p = some b := by
  unfold readFileE
  cases h : lookupFile fs.files p <;> simp

theorem writeFile_ok_iff {fs : FS} {p : FPath} {b : Bytes} {fs' : FS} :
    fs.writeFile p b = Except.ok fs' ↔
      fs.dirExists p.dropLast = true ∧ fs.dirExists p = false ∧
      fs' = { fs with files := setFile fs.files p b } := by
  unfold FS.writeFile
  cases h1 : fs.dirExists p.dropLast <;> cases h2 : fs.dirExists p <;>
    simp [h1, h2, eq_comm]

theorem mkdir_ok_iff {fs : FS} {p : FPath} {fs' : FS} :
    fs.mkdir p = Except.ok fs' ↔
      fs.pathExists p = false ∧ fs.dirExists p.dropLast = true ∧
      fs' = { fs with dirs := p :: fs.dirs } := by
  unfold FS.mkdir
  cases h1 : fs.pathExists p <;> cases h2 : fs.dirExists p.dropLast <;>
    simp [h1, h2, eq_comm]

/-- Inversion of a successful `download_data` run: the HTTP body exists,
the file map gained exactly the write at `path ++ [name]`, the directory
list is unchanged or gained exactly `path`, the target directory exists
afterwards, and the event list is GET-then-write with an optional
preceding mkdir. -/
theorem download_data_inv {env : Env} {url name : String} {path : FPath}
    {fs fs' : FS} {evs : List Event}
    (h : download_data env url name path fs = Except.ok (fs', evs)) :
    ∃ body, env.http url = Except.ok body ∧
      fs'.files = setFile fs.files (path ++ [name]) body ∧
      (fs'.dirs = fs.dirs ∨ fs'.dirs = path :: fs.dirs) ∧
      fs'.dirExists path = true ∧
      fs'.dirExists (path ++ [name]) = false ∧
      (fs.pathExists path = false → fs'.dirs = path :: fs.dirs) ∧
      (fs.pathExists path = true → fs'.dirs = fs.dirs) ∧
      (evs = [Event.get url, Event.write (path ++ [name]) body] ∨
       evs = [Event.mkdirE path, Event.get url, Event.write (path ++ [name]) body]) := by
  unfold download_data at h
  obtain ⟨s1, h1, h2⟩ := exceptStep_ok_iff.mp h
  obtain ⟨content, hc, h3⟩ := exceptStep_ok_iff.mp h2
  obtain ⟨fs2, hw, h4⟩ := exceptStep_ok_iff.mp h3
  obtain ⟨hwd, hwn, hfs2⟩ := writeFile_ok_iff.mp hw
  rw [dropLast_snoc] at hwd
  simp only [Except.ok.injEq, Prod.mk.injEq] at h4
  obtain ⟨hfs', hevs⟩ := h4
  by_cases hp : fs.pathExists path = true
  · rw [if_pos hp] at h1
    simp only [Except.ok.injEq] at h1
    subst h1
    refine ⟨content, hc, ?_, ?_, ?_, ?_, ?_, ?_, ?_⟩
    · rw [← hfs', hfs2]
    · left; rw [← hfs', hfs2]
    · rw [← hfs', hfs2]; exact hwd
    · rw [← hfs', hfs2]; exact hwn
    · intro hcon; rw [hcon] at hp; exact absurd hp (by simp)
    · intro _; rw [← hfs', hfs2]
    · left; rw [← hevs]; simp
  · rw [if_neg hp] at h1
    obtain ⟨fs1, hm, h1'⟩ := exceptStep_ok_iff.mp h1
    obtain ⟨hmp, hmd, hfs1⟩ := mkdir_ok_iff.mp hm
    simp only [Except.ok.injEq] at h1'
    subst h1'
    subst hfs1
    refine ⟨content, hc, ?_, ?_, ?_, ?_, ?_, ?_, ?_⟩
    · rw [← hfs', hfs2]
    · right; rw [← hfs', hfs2]
    · rw [← hfs', hfs2]
      simp [FS.dirExists]
    · rw [← hfs', hfs2]; exact hwn
    · intro _; rw [← hfs', hfs2]
    · intro hcon; exact absurd hcon hp
    · right; rw [← hevs]; simp

theorem download_list_nil (env : Env) (path : FPath) (fs : FS) :
    download_list env path fs [] = Except.ok (fs, []) := rfl

theorem download_list_cons_ok_iff {env : Env} {path : FPath} {fs : FS}
    {href name : String} {rest : List (String × String)} {s : FS × List Event} :
    download_list env path fs ((href, name) :: rest) = Except.ok s ↔
      ∃ s1 s2, download_data env href name path fs = Except.ok s1 ∧
        download_list env path s1.1 rest = Except.ok s2 ∧
        s = (s2.1, s1.2 ++ s2.2) := by
  constructor
  · intro h
    unfold download_list at h
    obtain ⟨s1, h1, h'⟩ := exceptStep_ok_iff.mp h
    obtain ⟨s2, h2, h''⟩ := exceptStep_ok_iff.mp h'
    exact ⟨s1, s2, h1, h2, (Except.ok.inj h'').symm⟩
  · rintro ⟨s1, s2, h1, h2, rfl⟩
    unfold download_list
    rw [h1]
    show exceptStep (download_list env path s1.1 rest) _ = _
    rw [h2]
    rfl

theorem extract_zip_ok_iff {env : Env} {zipPath target : FPath} {fs : FS}
    {s : FS × List Event} :
    extract_zip env zipPath target fs = Except.ok s ↔
      ∃ archive entries, lookupFile fs.files zipPath = some archive ∧
        env.unzip archive = Except.ok entries ∧
        s = ({ dirs := target :: fs.dirs, files := writeEntries fs.files target entries },
             Event.extractE zipPath target ::
               entries.map (fun e => Event.write (target ++ [e.1]) e.2)) := by
  constructor
  · intro h
    unfold extract_zip at h
    obtain ⟨a, ha, h'⟩ := exceptStep_ok_iff.mp h
    obtain ⟨es, hes, h''⟩ := exceptStep_ok_iff.mp h'
    exact ⟨a, es, readFileE_ok_iff.mp ha, hes, (Except.ok.inj h'').symm⟩
  · rintro ⟨a, es, ha, hes, rfl⟩
    unfold extract_zip
    rw [readFileE_ok_iff.mpr ha]
    show exceptStep (env.unzip a) _ = _
    rw [hes]
    rfl

theorem download_all_ok_iff {env : Env} {path : FPath} {fs : FS}
    {s : FS × List Event} :
    download_all env path fs = Except.ok s ↔
      ∃ sL sE, download_list env path fs [OCCUPANCY, CREDIT, CONCRETE] = Except.ok sL ∧
        extract_zip env (path ++ [("occupancy.zip")]) (path ++ [("occupancy")]) sL.1 =
          Except.ok sE ∧
        s = (sE.1, sL.2 ++ sE.2) := by
  constructor
  · intro h
    unfold download_all at h
    obtain ⟨sL, hL, h'⟩ := exceptStep_ok_iff.mp h
    obtain ⟨sE, hE, h''⟩ := exceptStep_ok_iff.mp h'
    exact ⟨sL, sE, hL, hE, (Except.ok.inj h'').symm⟩
  · rintro ⟨sL, sE, hL, hE, rfl⟩
    unfold download_all
    rw [hL]
    show exceptStep (extract_zip env _ _ sL.1) _ = _
    rw [hE]
    rfl

theorem download_data_events_no_extract {env : Env} {url name : String}
    {path : FPath} {fs fs' : FS} {evs : List Event}
    (h : download_data env url name path fs = Except.ok (fs', evs)) :
    ∀ ev ∈ evs, ev.isExtract = false := by
  obtain ⟨body, _, _, _, _, _, _, _, hevs⟩ := download_data_inv h
  rcases hevs with rfl | rfl <;> intro ev hev <;>
    simp only [List.mem_cons, List.not_mem_nil, or_false] at hev
  · rcases hev with rfl | rfl <;> rfl
  · rcases hev with rfl | rfl | rfl <;> rfl

/-! ## Claims -/

/-- C1: for every url, name, and path, `download_data` performs exactly one
HTTP GET to `url` and writes the response body byte-for-byte unchanged to
the file at `os.path.join(path, name)`: after a successful call the file
content equals the bytes of the HTTP response, with nothing prepended,
appended, or transformed. -/
theorem C1_download_data_writes_response_verbatim {env : Env}
    {url name : String} {path : FPath} {fs fs' : FS} {evs : List Event}
    (h : download_data env url name path fs = Except.ok (fs', evs)) :
    ∃ body, env.http url = Except.ok body ∧
      lookupFile fs'.files (path ++ [name]) = some body ∧
      evs.filter Event.isGet = [Event.get url] := by
  obtain ⟨body, hb, hfiles, _, _, _, _, _, hevs⟩ := download_data_inv h
  refine ⟨body, hb, ?_, ?_⟩
  · rw [hfiles]
    exact lookup_setFile_self _ _ _
  · rcases hevs with rfl | rfl <;> rfl

/-- The filesystem state after downloading the occupancy dataset from the
all-succeeding environment into an initially empty `data` directory. -/
def dlFS1 : FS :=
  { dirs := [["data"], ["figures"]],
    files := [(["data", "occupancy.zip"], [1, 2])] }

/-- The event trace of that run. -/
def dlEvs1 : List Event :=
  [Event.mkdirE (["data"]), Event.get (OCCUPANCY.1),
   Event.write (["data", "occupancy.zip"]) ([1, 2])]

/-- Witness for C1 at a concrete successful run. -/
theorem C1_witness :
    ∃ body, envOk.http (OCCUPANCY.1) = Except.ok body ∧
      lookupFile dlFS1.files ((["data"]) ++ [OCCUPANCY.2]) = some body ∧
      dlEvs1.filter Event.isGet = [Event.get (OCCUPANCY.1)] :=
  @C1_download_data_writes_response_verbatim envOk (OCCUPANCY.1) (OCCUPANCY.2)
    (["data"]) fs0 dlFS1 dlEvs1 (by rfl)

/-- C3: `download_data` ensures the target directory exists before
writing: if `path` does not exist it is created (by a single `os.mkdir` of
the final component), and after a call that raises no error, `path` exists
as a directory containing the file `name`; this holds for every path
argument the caller supplies. -/
theorem C3_download_data_ensures_directory {env : Env}
    {url name : String} {path : FPath} {fs fs' : FS} {evs : List Event}
    (h : download_data env url name path fs = Except.ok (fs', evs)) :
    fs'.dirExists path = true ∧
    fs'.fileExists (path ++ [name]) = true ∧
    (fs.pathExists path = false → fs'.dirs = path :: fs.dirs) := by
  obtain ⟨body, _, hfiles, _, hdirEx, _, hmkF, _, _⟩ := download_data_inv h
  refine ⟨hdirEx, ?_, hmkF⟩
  unfold FS.fileExists
  rw [hfiles, lookup_setFile_self]
  rfl

/-- Witness for C3 at a concrete successful run, starting from a state
where the `data` directory does not yet exist. -/
theorem C3_witness :
    dlFS1.dirExists (["data"]) = true ∧
    dlFS1.fileExists ((["data"]) ++ [OCCUPANCY.2]) = true ∧
    (fs0.pathExists (["data"]) = false → dlFS1.dirs = (["data"]) :: fs0.dirs) :=
  @C3_download_data_ensures_directory envOk (OCCUPANCY.1) (OCCUPANCY.2)
    (["data"]) fs0 dlFS1 dlEvs1 (by rfl)

/-- C9: `download_data` is idempotent on the destination file: the file is
opened in write-binary mode, so an existing file is truncated and fully
replaced; a second run for the same `(url, name, path)` against the same
HTTP world returns exactly the filesystem the first run produced. -/
theorem C9_download_data_idempotent {env : Env} {url name : String}
    {path : FPath} {fs fs1 : FS} {e1 : List Event}
    (h : download_data env url name path fs = Except.ok (fs1, e1)) :
    ∃ body, env.http url = Except.ok body ∧
      download_data env url name path fs1 =
        Except.ok (fs1, [Event.get url, Event.write (path ++ [name]) body]) := by
  obtain ⟨body, hb, hfiles, _, hdirEx, hdirExName, _, _, _⟩ := download_data_inv h
  refine ⟨body, hb, ?_⟩
  have hpe : fs1.pathExists path = true := by
    unfold FS.pathExists
    rw [hdirEx]
    rfl
  have hsame : setFile fs1.files (path ++ [name]) body = fs1.files := by
    rw [hfiles, setFile_setFile]
  have hcond : (fs1.dirExists (path ++ [name]).dropLast &&
      !fs1.dirExists (path ++ [name])) = true := by
    rw [dropLast_snoc, hdirEx, hdirExName]
    rfl
  unfold download_data
  rw [if_pos hpe]
  show exceptStep (env.http url) _ = _
  rw [hb]
  show exceptStep (fs1.writeFile (path ++ [name]) body) _ = _
  unfold FS.writeFile
  rw [if_pos hcond, hsame]
  rfl

/-- Witness for C9: rerunning the concrete occupancy download reproduces
the same filesystem. -/
theorem C9_witness :
    ∃ body, envOk.http (OCCUPANCY.1) = Except.ok body ∧
      download_data envOk (OCCUPANCY.1) (OCCUPANCY.2) (["data"]) dlFS1 =
        Except.ok (dlFS1,
          [Event.get (OCCUPANCY.1),
           Event.write ((["data"]) ++ [OCCUPANCY.2]) body]) :=
  @C9_download_data_idempotent envOk (OCCUPANCY.1) (OCCUPANCY.2)
    (["data"]) fs0 dlFS1 dlEvs1 (by rfl)

/-- C2: for every path, `download_all` downloads the three fixed dataset
tuples OCCUPANCY, CREDIT, CONCRETE in that order, calling `download_data`
once per `(url, filename)` pair with the same path, and afterwards
extracts the archive at `os.path.join(path, 'occupancy.zip')` into the
subdirectory `os.path.join(path, 'occupancy')`; every extraction event
comes after all three downloads. -/
theorem C2_download_all_three_then_extract {env : Env} {path : FPath}
    {fs fs' : FS} {evs : List Event}
    (h : download_all env path fs = Except.ok (fs', evs)) :
    ∃ fs1 e1 fs2 e2 fs3 e3 e4,
      download_data env (OCCUPANCY.1) (OCCUPANCY.2) path fs = Except.ok (fs1, e1) ∧
      download_data env (CREDIT.1) (CREDIT.2) path fs1 = Except.ok (fs2, e2) ∧
      download_data env (CONCRETE.1) (CONCRETE.2) path fs2 = Except.ok (fs3, e3) ∧
      extract_zip env (path ++ [("occupancy.zip")]) (path ++ [("occupancy")]) fs3 =
        Except.ok (fs', e4) ∧
      evs = e1 ++ (e2 ++ (e3 ++ e4)) ∧
      (∀ ev ∈ e1 ++ (e2 ++ e3), ev.isExtract = false) := by
  obtain ⟨sL, sE, hL, hE, hs⟩ := download_all_ok_iff.mp h
  have hL' : download_list env path fs
      ((OCCUPANCY.1, OCCUPANCY.2) :: (CREDIT.1, CREDIT.2) ::
        (CONCRETE.1, CONCRETE.2) :: []) = Except.ok sL := hL
  obtain ⟨a1, r1, ha1, hr1, hsL⟩ := download_list_cons_ok_iff.mp hL'
  obtain ⟨a2, r2, ha2, hr2, hr1e⟩ := download_list_cons_ok_iff.mp hr1
  obtain ⟨a3, r3, ha3, hr3, hr2e⟩ := download_list_cons_ok_iff.mp hr2
  rw [download_list_nil] at hr3
  obtain rfl : r3 = (a3.1, []) := (Except.ok.inj hr3).symm
  subst hr2e
  subst hr1e
  subst hsL
  have hfs'' : fs' = sE.1 := congrArg Prod.fst hs
  have hevs : evs = (a1.2 ++ (a2.2 ++ (a3.2 ++ []))) ++ sE.2 := congrArg Prod.snd hs
  refine ⟨a1.1, a1.2, a2.1, a2.2, a3.1, a3.2, sE.2, ha1, ha2, ha3, ?_, ?_, ?_⟩
  · rw [hfs'']
    exact hE
  · rw [hevs]
    simp
  · intro ev hev
    rcases List.mem_append.mp hev with h1 | h23
    · exact download_data_events_no_extract ha1 ev h1
    · rcases List.mem_append.mp h23 with h2 | h3
      · exact download_data_events_no_extract ha2 ev h2
      · exact download_data_events_no_extract ha3 ev h3

/-- The filesystem after a full successful `download_all('data')` run from
the all-succeeding environment. -/
def dlAllFS : FS :=
  { dirs := [["data", "occupancy"], ["data"], ["figures"]],
    files := [(["data", "occupancy.zip"], [1, 2]),
              (["data", "credit.xls"], [3]),
              (["data", "concrete.xls"], [4]),
              (["data", "occupancy", "datatraining.txt"], [9])] }

/-- The event trace of that full `download_all` run. -/
def dlAllEvs : List Event :=
  [Event.mkdirE (["data"]),
   Event.get (OCCUPANCY.1),
   Event.write (["data", "occupancy.zip"]) ([1, 2]),
   Event.get (CREDIT.1),
   Event.write (["data", "credit.xls"]) ([3]),
   Event.get (CONCRETE.1),
   Event.write (["data", "concrete.xls"]) ([4]),
   Event.extractE (["data", "occupancy.zip"]) (["data", "occupancy"]),
   Event.write (["data", "occupancy", "datatraining.txt"]) ([9])]

/-- Witness for C2 at a concrete successful `download_all` run. -/
theorem C2_witness :
    ∃ fs1 e1 fs2 e2 fs3 e3 e4,
      download_data envOk (OCCUPANCY.1) (OCCUPANCY.2) (["data"]) fs0 =
        Except.ok (fs1, e1) ∧
      download_data envOk (CREDIT.1) (CREDIT.2) (["data"]) fs1 =
        Except.ok (fs2, e2) ∧
      download_data envOk (CONCRETE.1) (CONCRETE.2) (["data"]) fs2 =
        Except.ok (fs3, e3) ∧
      extract_zip envOk ((["data"]) ++ [("occupancy.zip")])
          ((["data"]) ++ [("occupancy")]) fs3 = Except.ok (dlAllFS, e4) ∧
      dlAllEvs = e1 ++ (e2 ++ (e3 ++ e4)) ∧
      (∀ ev ∈ e1 ++ (e2 ++ e3), ev.isExtract = false) :=
  @C2_download_all_three_then_extract envOk (["data"]) fs0 dlAllFS dlAllEvs (by rfl)

/-- Paths that differ in their last component are different. -/
theorem append_singleton_ne (path : FPath) {x y : String} (h : x ≠ y) :
    path ++ [x] ≠ path ++ [y] := by
  intro he
  apply h
  simpa using he

/-- C10: the archive `download_all` opens for extraction is exactly the
file it just wrote: the literal filename `occupancy.zip` of the extraction
step is the filename component of the OCCUPANCY tuple, both the archive
and the target subdirectory `occupancy` live under the `path` passed to
every `download_data` call, and the archive content at extraction time is
the occupancy HTTP response body. -/
theorem C10_extraction_opens_downloaded_archive {env : Env} {path : FPath}
    {fs fs' : FS} {evs : List Event}
    (h : download_all env path fs = Except.ok (fs', evs)) :
    OCCUPANCY.2 = ("occupancy.zip") ∧
    ∃ body fs3 e123 e4,
      env.http (OCCUPANCY.1) = Except.ok body ∧
      download_list env path fs [OCCUPANCY, CREDIT, CONCRETE] =
        Except.ok (fs3, e123) ∧
      lookupFile fs3.files (path ++ [OCCUPANCY.2]) = some body ∧
      extract_zip env (path ++ [OCCUPANCY.2]) (path ++ [("occupancy")]) fs3 =
        Except.ok (fs', e4) := by
  obtain ⟨sL, sE, hL, hE, hs⟩ := download_all_ok_iff.mp h
  have hL' : download_list env path fs
      ((OCCUPANCY.1, OCCUPANCY.2) :: (CREDIT.1, CREDIT.2) ::
        (CONCRETE.1, CONCRETE.2) :: []) = Except.ok sL := hL
  obtain ⟨a1, r1, ha1, hr1, hsL⟩ := download_list_cons_ok_iff.mp hL'
  obtain ⟨a2, r2, ha2, hr2, hr1e⟩ := download_list_cons_ok_iff.mp hr1
  obtain ⟨a3, r3, ha3, hr3, hr2e⟩ := download_list_cons_ok_iff.mp hr2
  rw [download_list_nil] at hr3
  obtain rfl : r3 = (a3.1, []) := (Except.ok.inj hr3).symm
  subst hr2e
  subst hr1e
  subst hsL
  have hfs'' : fs' = sE.1 := congrArg Prod.fst hs
  obtain ⟨b1, hb1, hf1, _⟩ := download_data_inv ha1
  obtain ⟨b2, hb2, hf2, _⟩ := download_data_inv ha2
  obtain ⟨b3, hb3, hf3, _⟩ := download_data_inv ha3
  refine ⟨rfl, b1, a3.1, _, sE.2, hb1, hL, ?_, ?_⟩
  · rw [hf3, lookup_setFile_ne _ _ _ _ (append_singleton_ne path (by decide)),
        hf2, lookup_setFile_ne _ _ _ _ (append_singleton_ne path (by decide)),
        hf1, lookup_setFile_self]
  · rw [hfs'']
    exact hE

/-- Witness for C10 at a concrete successful `download_all` run. -/
theorem C10_witness :
    OCCUPANCY.2 = ("occupancy.zip") ∧
    ∃ body fs3 e123 e4,
      envOk.http (OCCUPANCY.1) = Except.ok body ∧
      download_list envOk (["data"]) fs0 [OCCUPANCY, CREDIT, CONCRETE] =
        Except.ok (fs3, e123) ∧
      lookupFile fs3.files ((["data"]) ++ [OCCUPANCY.2]) = some body ∧
      extract_zip envOk ((["data"]) ++ [OCCUPANCY.2]) ((["data"]) ++ [("occupancy")]) fs3 =
        Except.ok (dlAllFS, e4) :=
  @C10_extraction_opens_downloaded_archive envOk (["data"]) fs0 dlAllFS dlAllEvs (by rfl)

/-- An environment whose HTTP layer always fails. -/
def envNetDown : Env :=
  { http := fun _ => Except.error ("ConnectionError"),
    unzip := fun _ => Except.ok ([]),
    render := [7] }

/-- An environment whose zip decompression always fails. -/
def envBadZip : Env :=
  { http := httpOk,
    unzip := fun _ => Except.error ("BadZipFile"),
    render := [7] }

/-- A filesystem where the `data` directory already exists. -/
def fsData : FS := { dirs := [["data"], ["figures"]], files := [] }

/-- A filesystem where `data` exists as a plain file, so opening
`data/<name>` for writing fails. -/
def fsFileData : FS := { dirs := [], files := [(["data"], [0])] }

/-- The filesystem after the three downloads but before extraction. -/
def dlFS3 : FS :=
  { dirs := [["data"], ["figures"]],
    files := [(["data", "occupancy.zip"], [1, 2]),
              (["data", "credit.xls"], [3]),
              (["data", "concrete.xls"], [4])] }

/-- The event trace of the three downloads. -/
def dlE123 : List Event :=
  [Event.mkdirE (["data"]),
   Event.get (OCCUPANCY.1),
   Event.write (["data", "occupancy.zip"]) ([1, 2]),
   Event.get (CREDIT.1),
   Event.write (["data", "credit.xls"]) ([3]),
   Event.get (CONCRETE.1),
   Event.write (["data", "concrete.xls"]) ([4])]

/-- C4: the fetcher performs no handling, retry, or recovery on any
failing input: a network error on the HTTP GET propagates out of
`download_data` unchanged; a failed file write propagates out of
`download_data` unchanged; a failed first download propagates out of
`download_all` unchanged; and a decompression error on the occupancy
archive propagates out of `download_all` unchanged. -/
theorem C4_errors_propagate_unhandled :
    (∀ (env : Env) (url name : String) (path : FPath) (fs : FS) (e : String),
        fs.pathExists path = true →
        env.http url = Except.error e →
        download_data env url name path fs = Except.error e) ∧
    (∀ (env : Env) (url name : String) (path : FPath) (fs : FS) (b : Bytes)
        (e : String),
        fs.pathExists path = true →
        env.http url = Except.ok b →
        fs.writeFile (path ++ [name]) b = Except.error e →
        download_data env url name path fs = Except.error e) ∧
    (∀ (env : Env) (path : FPath) (fs : FS) (e : String),
        download_data env (OCCUPANCY.1) (OCCUPANCY.2) path fs = Except.error e →
        download_all env path fs = Except.error e) ∧
    (∀ (env : Env) (path : FPath) (fs : FS) (s : FS × List Event) (e : String),
        download_list env path fs [OCCUPANCY, CREDIT, CONCRETE] = Except.ok s →
        extract_zip env (path ++ [("occupancy.zip")]) (path ++ [("occupancy")]) s.1 =
          Except.error e →
        download_all env path fs = Except.error e) := by
  refine ⟨?_, ?_, ?_, ?_⟩
  · intro env url name path fs e hp herr
    unfold download_data
    rw [if_pos hp]
    show exceptStep (env.http url) _ = _
    rw [herr]
    rfl
  · intro env url name path fs b e hp hok hw
    unfold download_data
    rw [if_pos hp]
    show exceptStep (env.http url) _ = _
    rw [hok]
    show exceptStep (fs.writeFile (path ++ [name]) b) _ = _
    rw [hw]
    rfl
  · intro env path fs e herr
    have hlist : download_list env path fs [OCCUPANCY, CREDIT, CONCRETE] =
        Except.error e := by
      show exceptStep (download_data env (OCCUPANCY.1) (OCCUPANCY.2) path fs) _ = _
      rw [herr]
      rfl
    unfold download_all
    rw [hlist]
    rfl
  · intro env path fs s e hok herr
    unfold download_all
    rw [hok]
    show exceptStep (extract_zip env (path ++ [("occupancy.zip")])
      (path ++ [("occupancy")]) s.1) _ = _
    rw [herr]
    rfl

/-- Witness for C4: each failure mode at a concrete input. -/
theorem C4_witness :
    download_data envNetDown (OCCUPANCY.1) (OCCUPANCY.2) (["data"]) fsData =
      Except.error ("ConnectionError") ∧
    download_data envOk (OCCUPANCY.1) (OCCUPANCY.2) (["data"]) fsFileData =
      Except.error ("NotADirectoryError") ∧
    download_all envNetDown (["data"]) fsData = Except.error ("ConnectionError") ∧
    download_all envBadZip (["data"]) fs0 = Except.error ("BadZipFile") :=
  ⟨C4_errors_propagate_unhandled.1 envNetDown (OCCUPANCY.1) (OCCUPANCY.2)
      (["data"]) fsData ("ConnectionError") (by rfl) (by rfl),
   C4_errors_propagate_unhandled.2.1 envOk (OCCUPANCY.1) (OCCUPANCY.2)
      (["data"]) fsFileData ([1, 2]) ("NotADirectoryError") (by rfl) (by rfl) (by rfl),
   C4_errors_propagate_unhandled.2.2.1 envNetDown (["data"]) fsData
      ("ConnectionError")
      (C4_errors_propagate_unhandled.1 envNetDown (OCCUPANCY.1) (OCCUPANCY.2)
        (["data"]) fsData ("ConnectionError") (by rfl) (by rfl)),
   C4_errors_propagate_unhandled.2.2.2 envBadZip (["data"]) fs0
      ((dlFS3, dlE123)) ("BadZipFile") (by rfl) (by rfl)⟩

/-- Paths with different heads are different. -/
theorem ne_of_head_ne {p q : FPath} (h : p.head? ≠ q.head?) : p ≠ q :=
  fun he => h (by rw [he])

/-- Every write event of a `download_data` run targets `path ++ [name]`. -/
theorem download_data_write_paths {env : Env} {url name : String}
    {path : FPath} {fs fs' : FS} {evs : List Event}
    (h : download_data env url name path fs = Except.ok (fs', evs)) :
    ∀ p b, Event.write p b ∈ evs → p = path ++ [name] := by
  obtain ⟨body, _, _, _, _, _, _, _, hevs⟩ := download_data_inv h
  rcases hevs with rfl | rfl <;> intro p b hpb <;> simp at hpb <;>
    exact hpb.1

/-- C7: every filesystem write of the two notebooks is confined to the
declared locations: each downloaded file and each extracted entry is
written under the `data` directory, the single output image is written
under the `figures` directory, and no file whose path starts elsewhere is
created or modified. -/
theorem C7_filesystem_writes_confined {env : Env} {fs fs' : FS}
    {evs : List Event}
    (h : run_notebooks env fs = Except.ok (fs', evs)) :
    (∀ p b, Event.write p b ∈ evs →
        p.head? = some ("data") ∨ p.head? = some ("figures")) ∧
    (∀ p : FPath, p.head? ≠ some ("data") → p.head? ≠ some ("figures") →
        lookupFile fs'.files p = lookupFile fs.files p) := by
  unfold run_notebooks at h
  obtain ⟨sA, hA, h2⟩ := exceptStep_ok_iff.mp h
  obtain ⟨sS, hS, h3⟩ := exceptStep_ok_iff.mp h2
  have hp3 := Except.ok.inj h3
  have hfs' : fs' = sS.1 := (congrArg Prod.fst hp3).symm
  have hevs : evs = sA.2 ++ sS.2 := (congrArg Prod.snd hp3).symm
  unfold savefig at hS
  obtain ⟨fsW, hW, hS2⟩ := exceptStep_ok_iff.mp hS
  obtain ⟨_, _, hfsW⟩ := writeFile_ok_iff.mp hW
  have hsS : sS = (fsW, [Event.write (["figures", "quadratics.png"]) env.render]) :=
    (Except.ok.inj hS2).symm
  obtain ⟨sL, sE, hL, hE, hsA⟩ := download_all_ok_iff.mp hA
  have hL' : download_list env (["data"]) fs
      ((OCCUPANCY.1, OCCUPANCY.2) :: (CREDIT.1, CREDIT.2) ::
        (CONCRETE.1, CONCRETE.2) :: []) = Except.ok sL := hL
  obtain ⟨a1, r1, ha1, hr1, hsL⟩ := download_list_cons_ok_iff.mp hL'
  obtain ⟨a2, r2, ha2, hr2, hr1e⟩ := download_list_cons_ok_iff.mp hr1
  obtain ⟨a3, r3, ha3, hr3, hr2e⟩ := download_list_cons_ok_iff.mp hr2
  rw [download_list_nil] at hr3
  obtain rfl : r3 = (a3.1, []) := (Except.ok.inj hr3).symm
  subst hr2e
  subst hr1e
  subst hsL
  obtain ⟨archive, entries, harch, hunz, hsE⟩ := extract_zip_ok_iff.mp hE
  subst hsE
  subst hsA
  subst hsS
  obtain ⟨b1, hb1, hf1, _⟩ := download_data_inv ha1
  obtain ⟨b2, hb2, hf2, _⟩ := download_data_inv ha2
  obtain ⟨b3, hb3, hf3, _⟩ := download_data_inv ha3
  constructor
  · intro p b hpb
    rw [hevs] at hpb
    rcases List.mem_append.mp hpb with hDL | hSv
    · rcases List.mem_append.mp hDL with h123 | hEx
      · rcases List.mem_append.mp h123 with h1 | h23
        · rw [download_data_write_paths ha1 p b h1]
          exact Or.inl rfl
        · rcases List.mem_append.mp h23 with h2 | h3'
          · rw [download_data_write_paths ha2 p b h2]
            exact Or.inl rfl
          · rcases List.mem_append.mp h3' with h3 | hnil
            · rw [download_data_write_paths ha3 p b h3]
              exact Or.inl rfl
            · exact absurd hnil (List.not_mem_nil _)
      · rcases List.mem_cons.mp hEx with heq | hmap
        · exact absurd heq (by simp)
        · obtain ⟨x, _, hx⟩ := List.mem_map.mp hmap
          have hp : (["data"] : FPath) ++ [("occupancy")] ++ [x.1] = p := by
            have := congrArg (fun ev => match ev with
              | Event.write q _ => q
              | _ => []) hx
            simpa using this
          rw [← hp]
          exact Or.inl rfl
    · rcases List.mem_cons.mp hSv with heq | hnil
      · have hp : p = (["figures", "quadratics.png"] : FPath) := by
          have := congrArg (fun ev => match ev with
            | Event.write q _ => q
            | _ => []) heq
          simpa using this
        rw [hp]
        exact Or.inr rfl
      · exact absurd hnil (List.not_mem_nil _)
  · intro p hp1 hp2
    rw [hfs']
    show lookupFile fsW.files p = _
    rw [hfsW]
    show lookupFile (setFile _ (["figures", "quadratics.png"]) env.render) p = _
    rw [lookup_setFile_ne _ _ _ _ (ne_of_head_ne hp2)]
    show lookupFile (writeEntries a3.1.files ((["data"]) ++ [("occupancy")]) entries) p = _
    rw [lookup_writeEntries_ne _ _ _ _ (fun s => ne_of_head_ne hp1)]
    rw [hf3, lookup_setFile_ne _ _ _ _ (ne_of_head_ne hp1)]
    rw [hf2, lookup_setFile_ne _ _ _ _ (ne_of_head_ne hp1)]
    rw [hf1, lookup_setFile_ne _ _ _ _ (ne_of_head_ne hp1)]

/-- The filesystem after running both notebooks against `envOk`. -/
def rnFS : FS :=
  { dirs := [["data", "occupancy"], ["data"], ["figures"]],
    files := [(["data", "occupancy.zip"], [1, 2]),
              (["data", "credit.xls"], [3]),
              (["data", "concrete.xls"], [4]),
              (["data", "occupancy", "datatraining.txt"], [9]),
              (["figures", "quadratics.png"], [7])] }

/-- The event trace of that run. -/
def rnEvs : List Event :=
  dlAllEvs ++ [Event.write (["figures", "quadratics.png"]) ([7])]

/-- Witness for C7 at the concrete full run. -/
theorem C7_witness :
    (∀ p b, Event.write p b ∈ rnEvs →
        p.head? = some ("data") ∨ p.head? = some ("figures")) ∧
    (∀ p : FPath, p.head? ≠ some ("data") → p.head? ≠ some ("figures") →
        lookupFile rnFS.files p = lookupFile fs0.files p) :=
  @C7_filesystem_writes_confined envOk fs0 rnFS rnEvs (by rfl)

/-- C5 counterexample: the claim that the authored control flow has a
single loop and no conditional branch anywhere is false: `download_data`
contains the conditional `if not os.path.exists(path)`, and `pyplot.ipynb`
contains a second loop, `for style in plt.style.available`. -/
theorem C5_counterexample :
    ¬ (countLoops authoredCode = 1 ∧ countBranches authoredCode = 0) := by
  decide

/-- C5 amended: the authored control flow is straight-line execution plus
exactly two for-loops — the loop over the three fixed dataset tuples in
`download_all` and the loop over the available plot styles in
`pyplot.ipynb` — and exactly one conditional branch, the directory
existence check in `download_data`. -/
theorem C5_control_flow_two_loops_one_branch :
    countLoops authoredCode = 2 ∧
    countBranches authoredCode = 1 ∧
    loopsOf featureSelectionCode =
      [(("href, name"), ("(OCCUPANCY, CREDIT, CONCRETE)"))] ∧
    loopsOf pyplotCode = [(("style"), ("plt.style.available"))] := by
  decide

/-- C6: immediately after the occupancy dataset is loaded, its columns are
renamed by direct positional assignment: whatever column names the parsed
file produced are replaced wholesale by the seven names
`date, temp, humid, light, co2, hratio, occupied`, in that order, and the
row data is unchanged by the rename. -/
theorem C6_columns_renamed_wholesale {α : Type} (parsed df' : DataFrame α)
    (h : load_occupancy_cell parsed = Except.ok df') :
    df'.cols = occupancy_columns ∧ df'.rows = parsed.rows := by
  unfold load_occupancy_cell set_columns at h
  by_cases hl : occupancy_columns.length = parsed.cols.length
  · rw [if_pos hl] at h
    have := Except.ok.inj h
    rw [← this]
    exact ⟨rfl, rfl⟩
  · rw [if_neg hl] at h
    exact absurd h (by simp)

/-- A concrete parsed occupancy table, with the column names the raw file
carries and one data row. -/
def occParsed : DataFrame Nat :=
  { cols := ["date0", "Temperature", "Humidity", "Light", "CO2",
             "HumidityRatio", "Occupancy"],
    rows := [[10, 11, 12, 13, 14, 15, 16]] }

/-- Witness for C6 at the concrete parsed table. -/
theorem C6_witness :
    (DataFrame.cols { cols := occupancy_columns, rows := occParsed.rows } : List String) =
      occupancy_columns ∧
    (DataFrame.rows { cols := occupancy_columns, rows := occParsed.rows } : List (List Nat)) =
      occParsed.rows :=
  C6_columns_renamed_wholesale occParsed
    { cols := occupancy_columns, rows := occParsed.rows } (by rfl)

/-- C8: `features` and `labels` are simple column subsets of the loaded
occupancy table: `features` is the projection onto exactly the five
columns `temp, humid, light, co2, hratio` (positions 1 to 5 of the renamed
table), `labels` is the `occupied` column (position 6), every row is
preserved in order and no value is transformed. -/
theorem C8_features_labels_are_column_subsets {α : Type} [Inhabited α]
    (occupancy : DataFrame α) (h : occupancy.cols = occupancy_columns) :
    features_cell occupancy =
      Except.ok
        { cols := feature_columns,
          rows := occupancy.rows.map (fun r =>
            [r.getD 1 default, r.getD 2 default, r.getD 3 default,
             r.getD 4 default, r.getD 5 default]) } ∧
    labels_cell occupancy =
      Except.ok (occupancy.rows.map (fun r => r.getD 6 default)) := by
  obtain ⟨cols, rows⟩ := occupancy
  simp only [DataFrame.cols] at h
  subst h
  exact ⟨rfl, rfl⟩

/-- The occupancy table after the rename, with two concrete rows. -/
def occLoaded : DataFrame Nat :=
  { cols := occupancy_columns,
    rows := [[10, 11, 12, 13, 14, 15, 16], [20, 21, 22, 23, 24, 25, 26]] }

/-- Witness for C8 at the concrete loaded table. -/
theorem C8_witness :
    features_cell occLoaded =
      Except.ok
        { cols := feature_columns,
          rows := occLoaded.rows.map (fun r =>
            [r.getD 1 default, r.getD 2 default, r.getD 3 default,
             r.getD 4 default, r.getD 5 default]) } ∧
    labels_cell occLoaded =
      Except.ok (occLoaded.rows.map (fun r => r.getD 6 default)) :=
  C8_features_labels_are_column_subsets occLoaded (by rfl)
